import Mathlib

/-!
Verification of `examples/reliable_refund/durable_swarm.py`.

The file under study wraps the agent-orchestration class `Swarm` in a
subclass `DurableSwarm` that re-registers three inherited methods under
durability-runtime (`DBOS`) decorators and adds a printing side effect to
`run`.  We embed:

* the class body as data (`durableSwarmMethods`): each defined method with
  the list of decorators applied to it in the source;
* the module body as an ordered list of top-level statements
  (`moduleBody`);
* the three wrapper method bodies as state- and trace-passing functions
  over an abstract parent implementation (`SwarmOracle`), with the parent
  invocations and the `pretty_print_messages` call recorded as events;
* the constructor body as the ordered list of the two delegated
  constructor calls it performs (`DurableSwarm.init`).

`Swarm` itself belongs to the surrounding repository but its definition is
outside the file under study; it is kept abstract (an oracle of method
implementations), and the parts of its interface the wrapper relies on
are taken from the calls the wrapper makes.
-/

/-- A durability-runtime decorator occurring in the source file:
`@DBOS.step()`, `@DBOS.workflow()`, or the class-level `@DBOS.dbos_class()`. -/
inductive Decorator where
  | dbosStep
  | dbosWorkflow
  | dbosClass
deriving DecidableEq, Repr

/-- One method definition of the `DurableSwarm` class body: its name and
the decorators applied to it, in source order. -/
structure MethodDef where
  name : String
  decorators : List Decorator
deriving DecidableEq, Repr

/-- The `DurableSwarm` class body, read off the source: it defines
`__init__` (undecorated), `get_chat_completion` under `@DBOS.step()`,
`handle_tool_calls` (undecorated; a comment in the source says to decorate
individual tool calls instead), and `run` under `@DBOS.workflow()`. -/
def durableSwarmMethods : List MethodDef :=
  [ ⟨"__init__", []⟩,
    ⟨"get_chat_completion", [Decorator.dbosStep]⟩,
    ⟨"handle_tool_calls", []⟩,
    ⟨"run", [Decorator.dbosWorkflow]⟩ ]

/-- Whether a method definition carries a durability-runtime checkpointing
decorator (`@DBOS.step()` or `@DBOS.workflow()`). -/
def checkpointMarked (m : MethodDef) : Bool :=
  m.decorators.contains Decorator.dbosStep
    || m.decorators.contains Decorator.dbosWorkflow

/-- The names of the methods the `DurableSwarm` class body defines. -/
def durableSwarmDefinedNames : List String :=
  durableSwarmMethods.map MethodDef.name

/-- Methods of `Swarm` that the wrapper file itself calls, hence that the
parent class certainly has: `Swarm.__init__(self, client)` is called in the
constructor, and `super().get_chat_completion`, `super().handle_tool_calls`
and `super().run` are called in the three wrappers.  (These are also the
operations the specification ascribes to the agent-conversation
interface.) -/
def swarmMethodNames : List String :=
  ["__init__", "get_chat_completion", "handle_tool_calls", "run"]

/-- The methods of `Swarm` that `DurableSwarm` overrides: the names the
class body defines that are also names of `Swarm` methods. -/
def overriddenNames : List String :=
  durableSwarmDefinedNames.filter (fun n => n ∈ swarmMethodNames)

/-- Which class supplies a method looked up on a `DurableSwarm` instance:
Python attribute lookup takes the subclass definition when one exists and
otherwise falls through to the parent class. -/
inductive MethodSource where
  | durableSwarm
  | swarm
deriving DecidableEq, Repr

/-- Method dispatch on a `DurableSwarm` instance. -/
def methodLookup (n : String) : MethodSource :=
  if n ∈ durableSwarmDefinedNames then MethodSource.durableSwarm
  else MethodSource.swarm

/-- A top-level statement of the module body, in the embedding. -/
inductive ModuleEvent where
  | importSwarm
  | importDbos
  | importPrettyPrintMessages
  | dbosInitCall
  | defineDbosClass (methods : List MethodDef)
  | dbosLaunchCall
deriving DecidableEq, Repr

/-- Whether a module statement is an import. -/
def isImportEvent : ModuleEvent → Bool
  | ModuleEvent.importSwarm => true
  | ModuleEvent.importDbos => true
  | ModuleEvent.importPrettyPrintMessages => true
  | _ => false

/-- Whether a module statement touches the durability runtime: the
process-wide `DBOS()` initialization, the definition of the decorated
class, or the `DBOS.launch()` call. -/
def isDurabilityEvent : ModuleEvent → Bool
  | ModuleEvent.dbosInitCall => true
  | ModuleEvent.defineDbosClass _ => true
  | ModuleEvent.dbosLaunchCall => true
  | _ => false

/-- The module body of `durable_swarm.py`, statement by statement: three
imports, the `DBOS()` initialization call, the decorated class definition,
and the `DBOS.launch()` call. -/
def moduleBody : List ModuleEvent :=
  [ ModuleEvent.importSwarm,
    ModuleEvent.importDbos,
    ModuleEvent.importPrettyPrintMessages,
    ModuleEvent.dbosInitCall,
    ModuleEvent.defineDbosClass durableSwarmMethods,
    ModuleEvent.dbosLaunchCall ]

/-- A response returned by `Swarm.run`: the wrapper reads its `.messages`
attribute, a sequence of messages. -/
structure Response (Msg : Type) where
  messages : List Msg
deriving DecidableEq, Repr

/-- An observable event of a wrapper method body: a delegated call to the
parent implementation (carrying the exact argument list forwarded), or the
`pretty_print_messages` call (carrying the message list printed). -/
inductive Ev (Args Msg : Type) where
  | parentGetChatCompletionCall (args : Args)
  | parentHandleToolCallsCall (args : Args)
  | parentRunCall (args : Args)
  | prettyPrint (messages : List Msg)
deriving DecidableEq, Repr

/-- Modelled from the spec: the agent-conversation interface of the parent
class `Swarm`, whose definition lives outside the file under study.  It is
kept fully abstract: a method that obtains a model completion given
arguments, a method that dispatches tool calls, and a method that runs a
full conversation loop and returns a response containing a sequence of
messages (or raises).  Each method may read and update the
library-owned instance state `σ`. -/
structure SwarmOracle (Args Compl ToolRes Msg ε σ : Type) where
  get_chat_completion : Args → σ → Compl × σ
  handle_tool_calls : Args → σ → ToolRes × σ
  run : Args → σ → Except ε (Response Msg) × σ

section Wrappers

variable {Args Compl ToolRes Msg ε σ Client : Type}

/-- The body of `DurableSwarm.get_chat_completion`:
`return super().get_chat_completion(*args, **kwargs)`.  It delegates to
the parent with the same arguments and state, and performs nothing else. -/
def DurableSwarm.get_chat_completion (p : SwarmOracle Args Compl ToolRes Msg ε σ)
    (args : Args) (s : σ) : Compl × σ × List (Ev Args Msg) :=
  ((p.get_chat_completion args s).1, (p.get_chat_completion args s).2,
    [Ev.parentGetChatCompletionCall args])

/-- The body of `DurableSwarm.handle_tool_calls`:
`return super().handle_tool_calls(*args, **kwargs)`.  It delegates to the
parent with the same arguments and state, and performs nothing else. -/
def DurableSwarm.handle_tool_calls (p : SwarmOracle Args Compl ToolRes Msg ε σ)
    (args : Args) (s : σ) : ToolRes × σ × List (Ev Args Msg) :=
  ((p.handle_tool_calls args s).1, (p.handle_tool_calls args s).2,
    [Ev.parentHandleToolCallsCall args])

/-- The body of `DurableSwarm.run`:
`response = super().run(*args, **kwargs)` then
`pretty_print_messages(response.messages)` then `return response`.
If the parent call raises, the exception propagates before the print. -/
def DurableSwarm.run (p : SwarmOracle Args Compl ToolRes Msg ε σ)
    (args : Args) (s : σ) : Except ε (Response Msg) × σ × List (Ev Args Msg) :=
  match p.run args s with
  | (Except.error e, s1) => (Except.error e, s1, [Ev.parentRunCall args])
  | (Except.ok response, s1) =>
      (Except.ok response, s1,
        [Ev.parentRunCall args, Ev.prettyPrint response.messages])

/-- An event of the `DurableSwarm.__init__` body: the delegated call to
`Swarm.__init__(self, client)` or to
`DBOSConfiguredInstance.__init__(self, "openai_client")`. -/
inductive InitEv (Client : Type) where
  | swarmInitCall (client : Option Client)
  | dbosConfiguredInstanceInitCall (instanceName : String)
deriving DecidableEq, Repr

/-- The default value of the `client` parameter of
`DurableSwarm.__init__(self, client=None)`. -/
def DurableSwarm.initDefaultClient : Option Client := none

/-- The body of `DurableSwarm.__init__(self, client=None)`: it calls
`Swarm.__init__(self, client)` and then
`DBOSConfiguredInstance.__init__(self, "openai_client")`. -/
def DurableSwarm.init
    (client : Option Client := DurableSwarm.initDefaultClient) :
    List (InitEv Client) :=
  [ InitEv.swarmInitCall client,
    InitEv.dbosConfiguredInstanceInitCall "openai_client" ]

/-- The DBOS instance name that a constructor-event trace registers, if
any: the argument of its first `DBOSConfiguredInstance.__init__` call. -/
def registeredInstanceName (evs : List (InitEv Client)) : Option String :=
  evs.findSome? fun e =>
    match e with
    | InitEv.dbosConfiguredInstanceInitCall n => some n
    | _ => none

end Wrappers

/-- A concrete parent oracle whose `run` succeeds, used to instantiate
hypotheses of the theorems below. -/
def sampleOracle : SwarmOracle Nat Nat Nat String Unit Nat :=
  ⟨fun a s => (a + s, s + 1), fun a s => (a * 2, s),
    fun a s => (Except.ok ⟨["done"]⟩, s + a)⟩

/-- A concrete parent oracle whose `run` raises, used to instantiate
hypotheses of the theorems below. -/
def failOracle : SwarmOracle Nat Nat Nat String Unit Nat :=
  ⟨fun a s => (a + s, s + 1), fun a s => (a * 2, s),
    fun a s => (Except.error (), s + a)⟩

section ClaimTheorems

variable {Args Compl ToolRes Msg ε σ Client : Type}

/-- C1: for every argument list, `DurableSwarm.run` first invokes the
parent `Swarm.run` with exactly those arguments, then prints the messages
of the resulting response, and returns that response unchanged. -/
theorem run_delegates_prints_and_returns
    (p : SwarmOracle Args Compl ToolRes Msg ε σ) (args : Args) (s s1 : σ)
    (r : Response Msg) (h : p.run args s = (Except.ok r, s1)) :
    DurableSwarm.run p args s =
      (Except.ok r, s1, [Ev.parentRunCall args, Ev.prettyPrint r.messages]) := by
  unfold DurableSwarm.run
  rw [h]

/-- Witness for C1 at a concrete parent whose `run` succeeds. -/
theorem run_delegates_prints_and_returns_witness :
    sampleOracle.run 3 0 = (Except.ok ⟨["done"]⟩, 3) ∧
    DurableSwarm.run sampleOracle 3 0 =
      (Except.ok ⟨["done"]⟩, 3, [Ev.parentRunCall 3, Ev.prettyPrint ["done"]]) :=
  ⟨rfl, run_delegates_prints_and_returns sampleOracle 3 0 3 ⟨["done"]⟩ rfl⟩

/-- C2 counterexample: it is not the case that each of the three
overridden methods `get_chat_completion`, `handle_tool_calls` and `run`
carries a checkpointing decorator: `handle_tool_calls` carries none. -/
theorem overridden_trio_not_all_checkpoint_marked :
    ¬ (∀ m ∈ durableSwarmMethods,
        m.name = "get_chat_completion" ∨ m.name = "handle_tool_calls" ∨
          m.name = "run" →
        checkpointMarked m = true) := by decide

/-- C2 amended: of the three overridden methods, `get_chat_completion`
carries exactly the step decorator and `run` exactly the workflow
decorator, while `handle_tool_calls` is overridden with no decorator. -/
theorem step_workflow_marks_and_plain_tool_calls :
    (∃ m ∈ durableSwarmMethods,
      m.name = "get_chat_completion" ∧ m.decorators = [Decorator.dbosStep]) ∧
    (∃ m ∈ durableSwarmMethods,
      m.name = "run" ∧ m.decorators = [Decorator.dbosWorkflow]) ∧
    (∃ m ∈ durableSwarmMethods,
      m.name = "handle_tool_calls" ∧ m.decorators = []) := by decide

/-- C3: `DurableSwarm.get_chat_completion` returns exactly the parent's
value at the same arguments and state, leaves the state exactly as the
parent call leaves it, and its definition carries the step decorator. -/
theorem get_chat_completion_step_marked_delegation
    (p : SwarmOracle Args Compl ToolRes Msg ε σ) (args : Args) (s : σ) :
    (DurableSwarm.get_chat_completion p args s).1 =
      (p.get_chat_completion args s).1 ∧
    (DurableSwarm.get_chat_completion p args s).2.1 =
      (p.get_chat_completion args s).2 ∧
    ∃ m ∈ durableSwarmMethods,
      m.name = "get_chat_completion" ∧ Decorator.dbosStep ∈ m.decorators :=
  ⟨rfl, rfl, by decide⟩

/-- C4: `DurableSwarm.handle_tool_calls` is a pure pass-through: its
result, and the state it leaves, are exactly those of the parent call, and
its trace holds nothing but that delegated call — in particular it prints
nothing. -/
theorem handle_tool_calls_pure_pass_through
    (p : SwarmOracle Args Compl ToolRes Msg ε σ) (args : Args) (s : σ) :
    DurableSwarm.handle_tool_calls p args s =
      ((p.handle_tool_calls args s).1, (p.handle_tool_calls args s).2,
        [Ev.parentHandleToolCallsCall args]) ∧
    ∀ msgs, Ev.prettyPrint msgs ∉
      (DurableSwarm.handle_tool_calls p args s).2.2 :=
  ⟨rfl, by simp [DurableSwarm.handle_tool_calls]⟩

/-- C5: the constructor's `client` parameter defaults to `None`, and the
given value is forwarded unchanged to the parent `Swarm` constructor (the
first delegated call of the body). -/
theorem init_default_none_and_forwards_client (c : Option Client) :
    (DurableSwarm.initDefaultClient : Option Client) = none ∧
    (DurableSwarm.init : List (InitEv Client)) =
      [InitEv.swarmInitCall none,
        InitEv.dbosConfiguredInstanceInitCall "openai_client"] ∧
    DurableSwarm.init c =
      [InitEv.swarmInitCall c,
        InitEv.dbosConfiguredInstanceInitCall "openai_client"] :=
  ⟨rfl, rfl, rfl⟩

/-- C6: at module load the `DBOS()` initialization call comes first among
the durability-runtime statements, then the decorated class definition
(carrying a step and a workflow decorator), then `DBOS.launch()`;
the initialization is the first statement after the imports and the
launch call is the last statement of the module. -/
theorem module_load_order :
    moduleBody.filter isDurabilityEvent =
      [ModuleEvent.dbosInitCall,
        ModuleEvent.defineDbosClass durableSwarmMethods,
        ModuleEvent.dbosLaunchCall] ∧
    (moduleBody.dropWhile isImportEvent).head? =
      some ModuleEvent.dbosInitCall ∧
    moduleBody.getLast? = some ModuleEvent.dbosLaunchCall ∧
    (∃ m ∈ durableSwarmMethods, Decorator.dbosStep ∈ m.decorators) ∧
    (∃ m ∈ durableSwarmMethods, Decorator.dbosWorkflow ∈ m.decorators) := by
  decide

/-- C7: none of the three overridden method bodies changes the instance
state itself: each leaves the state exactly as its delegated parent call
leaves it. -/
theorem wrappers_do_not_mutate_state
    (p : SwarmOracle Args Compl ToolRes Msg ε σ) (args : Args) (s : σ) :
    (DurableSwarm.get_chat_completion p args s).2.1 =
      (p.get_chat_completion args s).2 ∧
    (DurableSwarm.handle_tool_calls p args s).2.1 =
      (p.handle_tool_calls args s).2 ∧
    (DurableSwarm.run p args s).2.1 = (p.run args s).2 := by
  refine ⟨rfl, rfl, ?_⟩
  rcases h : p.run args s with ⟨e | r, s1⟩ <;> simp [DurableSwarm.run, h]

/-- C8: for every client argument, the constructor registers the
`DBOSConfiguredInstance` part under the constant name `"openai_client"`;
in particular the registered name does not depend on the client. -/
theorem instance_name_constant (c c2 : Option Client) :
    registeredInstanceName (DurableSwarm.init c) = some "openai_client" ∧
    registeredInstanceName (DurableSwarm.init c) =
      registeredInstanceName (DurableSwarm.init c2) :=
  ⟨rfl, rfl⟩

/-- C9: if the parent `Swarm.run` raises, `DurableSwarm.run` propagates
the exception (with whatever state the parent call left) and prints
nothing: no `pretty_print_messages` event appears in its trace. -/
theorem run_propagates_and_prints_nothing_on_error
    (p : SwarmOracle Args Compl ToolRes Msg ε σ) (args : Args) (s s1 : σ)
    (e : ε) (h : p.run args s = (Except.error e, s1)) :
    DurableSwarm.run p args s =
      (Except.error e, s1, [Ev.parentRunCall args]) ∧
    ∀ msgs, Ev.prettyPrint msgs ∉ (DurableSwarm.run p args s).2.2 := by
  unfold DurableSwarm.run
  rw [h]
  exact ⟨rfl, by simp⟩

/-- Witness for C9 at a concrete parent whose `run` raises. -/
theorem run_propagates_on_error_witness :
    failOracle.run 3 0 = (Except.error (), 3) ∧
    (DurableSwarm.run failOracle 3 0 =
        (Except.error (), 3, [Ev.parentRunCall 3]) ∧
      ∀ msgs, Ev.prettyPrint msgs ∉ (DurableSwarm.run failOracle 3 0).2.2) :=
  ⟨rfl, run_propagates_and_prints_nothing_on_error failOracle 3 0 3 () rfl⟩

/-- C10 counterexample: `DurableSwarm` does not override exactly the three
methods `get_chat_completion`, `handle_tool_calls`, `run`: it also
overrides `__init__`, a method of `Swarm` that its own constructor calls. -/
theorem overrides_not_exactly_three :
    overriddenNames ≠ ["get_chat_completion", "handle_tool_calls", "run"] ∧
    "__init__" ∈ overriddenNames := by decide

/-- C10 amended: `DurableSwarm` overrides exactly four methods of `Swarm`
— the constructor `__init__` in addition to the three listed — and any
operation it does not define is looked up on `Swarm` unchanged. -/
theorem overrides_four_and_rest_fall_through (n : String)
    (h : n ∉ durableSwarmDefinedNames) :
    overriddenNames =
      ["__init__", "get_chat_completion", "handle_tool_calls", "run"] ∧
    methodLookup n = MethodSource.swarm := by
  refine ⟨by decide, ?_⟩
  unfold methodLookup
  rw [if_neg h]

/-- Witness for the amended C10 at a method name the class body does not
define. -/
theorem overrides_fall_through_witness :
    "run_and_stream" ∉ durableSwarmDefinedNames ∧
    (overriddenNames =
        ["__init__", "get_chat_completion", "handle_tool_calls", "run"] ∧
      methodLookup "run_and_stream" = MethodSource.swarm) :=
  ⟨by decide, overrides_four_and_rest_fall_through "run_and_stream" (by decide)⟩

end ClaimTheorems
